import Mathlib

/-!
Verification of the BudgetManager repository: a shallow embedding of the
Cloudflare Worker API handlers and of the client CSV mapping found in
src/src/frontend/main.ts (the file holds both the frontend and the worker;
src/unnamed/part_000 holds the compiled frontend, the rollup config and,
as its third concatenated file, the database schema db/schema.sql).
Amounts are modelled as rationals, SQL tables as lists of rows, and the JS
truthiness checks of the handlers are embedded field by field. The schema
constraints a definition depends on are cited from that schema: the
AUTOINCREMENT primary key on categories.id, the unique index on
monthly_budgets (month, category_id), the CURRENT_TIMESTAMP defaults of
created_at and updated_at, the CHECK constraints on transactions.type and
transactions.source, and the FOREIGN KEY of category_id into categories,
which the D1 store enforces by default.
-/

namespace BudgetManager

/-- Monetary amounts of the store, modelled as rationals. -/
abbrev Money := ℚ

/-- Row of the `categories` table: id, name, is_active (1 = active modelled
as `true`), created_at. -/
structure Category where
  id : Nat
  name : String
  is_active : Bool
  created_at : Nat
  deriving DecidableEq

/-- Row of the `transactions` table. The `type` column is a plain string:
the store accepts whatever string the bulk insert hands it. -/
structure Txn where
  id : Nat
  date : String
  description : String
  amount : Money
  type : String
  category_id : Nat
  source : String
  deriving DecidableEq

/-- Row of the `monthly_budgets` table. Timestamps are abstract ticks. -/
structure BudgetRow where
  id : Nat
  month : String
  category_id : Nat
  budget_amount : Money
  created_at : Nat
  updated_at : Nat
  deriving DecidableEq

/-- The whole relational store: the three tables of the schema. -/
structure DB where
  categories : List Category
  transactions : List Txn
  budgets : List BudgetRow
  deriving DecidableEq

/-- Month key of a date string, as used by `strftime(%Y-%m, date)` in the
worker queries; modelled as the first seven characters, which is exact for
ISO `YYYY-MM-DD` dates. -/
def monthOf (date : String) : String := date.take 7

/-- One aggregate of the totals query of getSummary:
`SUM(CASE WHEN type = ty THEN amount ELSE 0 END)` over the transactions of
the month, with the COALESCE-like fallback to 0 of `totals[0] or 0`. -/
def totalsFold (db : DB) (month : String) (ty : String) : Money :=
  (db.transactions.filter (fun t => monthOf t.date == month)).foldl
    (fun acc t => acc + (if t.type == ty then t.amount else 0)) 0

/-- Row of the category_breakdown array of the summary report. -/
structure BreakdownRow where
  id : Nat
  name : String
  actual : Money
  budgeted : Money
  deriving DecidableEq

/-- The `actual` aggregate of the breakdown query of getSummary:
`COALESCE(SUM(CASE WHEN t.type = expense THEN t.amount ELSE 0 END), 0)`
over the transactions joined on category and month. -/
def rowActual (db : DB) (month : String) (cid : Nat) : Money :=
  (db.transactions.filter
      (fun t => t.category_id == cid && monthOf t.date == month)).foldl
    (fun acc t => acc + (if t.type == "expense" then t.amount else 0)) 0

/-- The `budgeted` value of the breakdown query:
`COALESCE(mb.budget_amount, 0)` from the join on category and month. The
schema (end of src/unnamed/part_000) declares UNIQUE(month, category_id) on
monthly_budgets, so at most one row matches and `find?` returns it. -/
def rowBudgeted (db : DB) (month : String) (cid : Nat) : Money :=
  match db.budgets.find? (fun b => b.category_id == cid && b.month == month) with
  | some b => b.budget_amount
  | none => 0

/-- Ordering relation of `ORDER BY actual DESC`. -/
def breakdownRelDesc (a b : BreakdownRow) : Prop := b.actual ≤ a.actual

instance : DecidableRel breakdownRelDesc :=
  fun a b => inferInstanceAs (Decidable (b.actual ≤ a.actual))

instance : IsTotal BreakdownRow breakdownRelDesc :=
  ⟨fun a b => le_total b.actual a.actual⟩

instance : IsTrans BreakdownRow breakdownRelDesc :=
  ⟨fun _ _ _ h1 h2 => le_trans h2 h1⟩

/-- The raw category_breakdown of getSummary: one row per active category
(grouping by c.id collapses nothing further because categories.id is the
primary key, see the header comment), ordered by actual descending. -/
def categoryBreakdown (db : DB) (month : String) : List BreakdownRow :=
  List.insertionSort breakdownRelDesc
    ((db.categories.filter (fun c => c.is_active)).map
      (fun c => ⟨c.id, c.name, rowActual db month c.id, rowBudgeted db month c.id⟩))

/-- The JSON body returned by GET /api/reports/summary. -/
structure Summary where
  month : String
  total_income : Money
  total_expenses : Money
  net : Money
  category_breakdown : List BreakdownRow
  deriving DecidableEq

/-- Embeds the worker handler getSummary for GET /api/reports/summary. -/
def getSummary (db : DB) (month : String) : Summary :=
  ⟨month, totalsFold db month "income", totalsFold db month "expense",
   totalsFold db month "income" - totalsFold db month "expense",
   categoryBreakdown db month⟩

/-- Sum of the amounts of the transactions of one type in a month, worded as
the spec words it (total income, total expenses); compared against the
CASE-WHEN fold of the source. -/
def sumOfType (db : DB) (month : String) (ty : String) : Money :=
  ((db.transactions.filter
      (fun t => t.type == ty && monthOf t.date == month)).map Txn.amount).sum

/-- Sum of the expense amounts of one category in a month, worded as the
spec words it; compared against the CASE-WHEN fold of the source. -/
def expenseSumIn (db : DB) (month : String) (cid : Nat) : Money :=
  ((db.transactions.filter
      (fun t => t.type == "expense" && t.category_id == cid &&
        monthOf t.date == month)).map Txn.amount).sum

/-- Rows the dashboard renders: loadDashboard keeps a breakdown row only
when `cat.actual > 0 or cat.budgeted > 0`. -/
def displayedBreakdown (s : Summary) : List BreakdownRow :=
  s.category_breakdown.filter
    (fun r => decide (0 < r.actual) || decide (0 < r.budgeted))

/-- Ordering relation of `ORDER BY name` on categories. -/
def catNameRel (a b : Category) : Prop := a.name ≤ b.name

instance : DecidableRel catNameRel :=
  fun a b => inferInstanceAs (Decidable (a.name ≤ b.name))

instance : IsTotal Category catNameRel :=
  ⟨fun a b => le_total a.name b.name⟩

instance : IsTrans Category catNameRel :=
  ⟨fun _ _ _ h1 h2 => le_trans h1 h2⟩

/-- Embeds the worker handler getCategories for GET /api/categories:
`SELECT * FROM categories WHERE is_active = 1 ORDER BY name`. -/
def getCategories (db : DB) : List Category :=
  List.insertionSort catNameRel (db.categories.filter (fun c => c.is_active))

/-- Embeds the worker handler deleteCategory for DELETE /api/categories/:id:
`UPDATE categories SET is_active = 0 WHERE id = ?`, a soft delete. -/
def deleteCategory (db : DB) (cid : Nat) : DB :=
  ⟨db.categories.map
      (fun c => if c.id == cid then { c with is_active := false } else c),
   db.transactions, db.budgets⟩

/-- Ordering relation of `ORDER BY t.date DESC` on transactions. -/
def txnDateRelDesc (a b : Txn) : Prop := b.date ≤ a.date

instance : DecidableRel txnDateRelDesc :=
  fun a b => inferInstanceAs (Decidable (b.date ≤ a.date))

instance : IsTotal Txn txnDateRelDesc :=
  ⟨fun a b => le_total b.date a.date⟩

instance : IsTrans Txn txnDateRelDesc :=
  ⟨fun _ _ _ h1 h2 => le_trans h2 h1⟩

/-- The `LEFT JOIN categories c ON t.category_id = c.id` of getTransactions:
attaches the category name. categories.id is the primary key (schema at the
end of src/unnamed/part_000), so at most one row matches and `find?`
returns it; an unmatched id yields NULL, modelled as `none`. -/
def joinName (db : DB) (t : Txn) : Txn × Option String :=
  ⟨t, (db.categories.find? (fun c => c.id == t.category_id)).map Category.name⟩

/-- Embeds the worker handler getTransactions for GET /api/transactions:
with a month, all transactions of the month ordered by date descending;
without, all transactions ordered by date descending limited to 100. -/
def getTransactions (db : DB) (month : Option String) : List (Txn × Option String) :=
  match month with
  | some m =>
    (List.insertionSort txnDateRelDesc
        (db.transactions.filter (fun t => monthOf t.date == m))).map (joinName db)
  | none =>
    ((List.insertionSort txnDateRelDesc db.transactions).take 100).map (joinName db)

/-- Largest id in use in the budget table; SQLite assigns max rowid plus one
to a fresh insert. -/
def maxBudgetId (rows : List BudgetRow) : Nat :=
  rows.foldl (fun m b => max m b.id) 0

/-- The conflict target of the budget upsert: the row of this month and
category. -/
def matchesBudget (month : String) (cid : Nat) (b : BudgetRow) : Bool :=
  b.month == month && b.category_id == cid

/-- The DO UPDATE arm of the budget upsert: overwrite budget_amount and bump
updated_at on the conflicting row, leave every other row alone. -/
def updateBudget (now : Nat) (amt : Money) (month : String) (cid : Nat)
    (b : BudgetRow) : BudgetRow :=
  if matchesBudget month cid b then
    { b with budget_amount := amt, updated_at := now }
  else b

/-- Upsert of one budget row:
`INSERT INTO monthly_budgets (month, category_id, budget_amount) VALUES
(?, ?, ?) ON CONFLICT(month, category_id) DO UPDATE SET budget_amount =
excluded.budget_amount, updated_at = CURRENT_TIMESTAMP`. The schema (end of
src/unnamed/part_000) declares UNIQUE(month, category_id) and gives
created_at and updated_at the default CURRENT_TIMESTAMP; the DO UPDATE arm
touches only budget_amount and updated_at. `now` is the current timestamp
tick. -/
def upsertBudget (now : Nat) (month : String) (cid : Nat) (amt : Money)
    (rows : List BudgetRow) : List BudgetRow :=
  if rows.any (matchesBudget month cid) then
    rows.map (updateBudget now amt month cid)
  else
    rows ++ [⟨maxBudgetId rows + 1, month, cid, amt, now, now⟩]

/-- One element of the budgets array of the POST /api/budgets body; a JSON
field a client may omit is an `Option`. -/
structure BudgetInput where
  category_id : Option Nat
  budget_amount : Option Money
  deriving DecidableEq

/-- The guard of the saveBudgets loop, with JS truthiness:
`category_id` must be truthy (present and nonzero) and `budget_amount`
must not be undefined. -/
def budgetInputOk (i : BudgetInput) : Bool :=
  (match i.category_id with | some c => c != 0 | none => false) &&
    i.budget_amount.isSome

/-- Embeds the worker handler saveBudgets for POST /api/budgets: one upsert
per element passing the guard, in order. -/
def saveBudgets (now : Nat) (month : String) (inputs : List BudgetInput)
    (rows : List BudgetRow) : List BudgetRow :=
  inputs.foldl
    (fun rs i =>
      if budgetInputOk i then
        upsertBudget now month (i.category_id.getD 0) (i.budget_amount.getD 0) rs
      else rs)
    rows

/-- Budget row with its created_at column blanked, to compare states up to
the creation timestamp. -/
def eraseCreated (b : BudgetRow) : BudgetRow := { b with created_at := 0 }

/-- A transaction object as posted by a client; a JSON field a client may
omit is an `Option`. -/
structure TxnInput where
  date : Option String
  description : Option String
  amount : Option Money
  type : Option String
  category_id : Option Nat
  source : Option String
  deriving DecidableEq

/-- The shared field check of createTransaction and of the import loop,
with JS truthiness: `date`, `description` and `type` must be truthy strings
(present and nonempty), `amount` must not be undefined, `category_id` must
be truthy (present and nonzero). -/
def fieldCheck (i : TxnInput) : Bool :=
  i.date.getD "" != "" && i.description.getD "" != "" && i.amount.isSome &&
    i.type.getD "" != "" && i.category_id.getD 0 != 0

/-- Largest id in use in the transactions table; SQLite assigns max rowid
plus one to a fresh insert. -/
def maxTxnId (l : List Txn) : Nat :=
  l.foldl (fun m t => max m t.id) 0

/-- The row a transaction insert writes, from a body whose checked fields
are present; `defSource` is the destructuring default of `source`. -/
def mkTxn (id : Nat) (defSource : String) (i : TxnInput) : Txn :=
  ⟨id, i.date.getD "", i.description.getD "", i.amount.getD 0,
   i.type.getD "", i.category_id.getD 0, i.source.getD defSource⟩

/-- The parameterized INSERT INTO transactions statement. -/
def insertTxn (db : DB) (defSource : String) (i : TxnInput) : DB :=
  ⟨db.categories,
   db.transactions ++ [mkTxn (maxTxnId db.transactions + 1) defSource i],
   db.budgets⟩

/-- Outcome a store INSERT of an import element can throw, per the schema
at the end of src/unnamed/part_000: `CHECK(type IN (income, expense))`,
`CHECK(source IN (manual, csv))` on the bound source (destructuring default
csv), and the FOREIGN KEY of category_id into categories, which the D1
store enforces by default; `none` means the insert succeeds. The bound
values are the ones the loop binds. -/
def insertErr (db : DB) (i : TxnInput) : Option String :=
  if !(i.type.getD "" == "income" || i.type.getD "" == "expense") then
    some "CHECK constraint failed: type"
  else if !(i.source.getD "csv" == "manual" || i.source.getD "csv" == "csv") then
    some "CHECK constraint failed: source"
  else if !(db.categories.any (fun c => c.id == i.category_id.getD 0)) then
    some "FOREIGN KEY constraint failed"
  else none

/-- The sequential loop of the bulk-import handler: elements failing the
field check are skipped; an element passing it is inserted, and a thrown
store error aborts the loop (earlier inserts stay committed, each statement
commits on its own). On the left the final store and the count of inserts,
on the right the store at the throw and the thrown message. -/
def importLoop (db : DB) : List TxnInput → Sum (DB × Nat) (DB × String)
  | [] => Sum.inl (db, 0)
  | i :: rest =>
    if fieldCheck i then
      match insertErr db i with
      | some m => Sum.inr (db, m)
      | none =>
        match importLoop (insertTxn db "csv" i) rest with
        | Sum.inl (db2, n) => Sum.inl (db2, n + 1)
        | Sum.inr e => Sum.inr e
    else importLoop db rest

/-- Status, error body, reported count and resulting store of one
bulk-import call. -/
structure ImportOutcome where
  status : Nat
  error : Option String
  imported : Option Nat
  db : DB
  deriving DecidableEq

/-- Embeds the worker bulk-import handler for POST /api/transactions/import
(named importTransactions in the source): the loop runs inside try/catch,
so a completed loop answers 200 with the count of inserts, while a thrown
store error is caught and answered 500 with its message and no count. -/
def txnImport (db : DB) (inputs : List TxnInput) : ImportOutcome :=
  match importLoop db inputs with
  | Sum.inl (db1, n) => ⟨200, none, some n, db1⟩
  | Sum.inr (db1, m) => ⟨500, some m, none, db1⟩

/-- Status, error body and resulting store state of one handler call. -/
structure HandlerResult where
  status : Nat
  error : Option String
  db : DB
  deriving DecidableEq

/-- Embeds the worker handler createTransaction for POST /api/transactions.
`storeErr` injects the outcome of the store call: `some msg` models a store
error thrown by the insert (caught and returned with status 500), `none` a
successful insert. Validation runs before the store is touched. -/
def createTransactionHandler (db : DB) (body : TxnInput)
    (storeErr : Option String) : HandlerResult :=
  if !fieldCheck body then
    ⟨400, some "Missing required fields", db⟩
  else if body.type.getD "" != "income" && body.type.getD "" != "expense" then
    ⟨400, some "Type must be \"income\" or \"expense\"", db⟩
  else
    match storeErr with
    | some m => ⟨500, some m, db⟩
    | none => ⟨201, none, insertTxn db "manual" body⟩

/-- One parsed CSV line, keyed by the three mapped headers; a missing or
empty cell is the empty string. -/
structure CSVRow where
  date : String
  description : String
  amountRaw : String
  deriving DecidableEq

/-- Value of a digit run, most significant first. -/
def digitsVal (cs : List Char) : Nat :=
  cs.foldl (fun a c => 10 * a + (c.toNat - 48)) 0

/-- Digit part of the JS parseFloat grammar: an integer part, then at most
one decimal point and a fraction part; none when no digit was read. -/
def parseDigits (cs : List Char) : Option ℚ :=
  let ip := cs.takeWhile Char.isDigit
  let rest := cs.dropWhile Char.isDigit
  let fp := match rest with
    | '.' :: r => r.takeWhile Char.isDigit
    | _ => []
  if ip.isEmpty && fp.isEmpty then none
  else some ((digitsVal ip : ℚ) + (digitsVal fp : ℚ) / (10 : ℚ) ^ fp.length)

/-- Leading numeric prefix parse of JS parseFloat: optional leading spaces,
optional sign, then digits with at most one decimal point; none (NaN) when
no digit is read. Exponent notation is not modelled. -/
def parseJSFloat (s : String) : Option ℚ :=
  match s.data.dropWhile (fun c => c == ' ') with
  | '-' :: rest => (parseDigits rest).map (fun q => -q)
  | '+' :: rest => parseDigits rest
  | cs => parseDigits cs

/-- The `replace` of the client mapping: drops every dollar sign and comma
of the raw amount cell. -/
def stripCurrency (s : String) : String :=
  ⟨s.data.filter (fun c => !(c == '$' || c == ','))⟩

/-- A mapped CSV transaction as built by the client before submission;
`amount` is `none` when the stripped cell did not parse (NaN). -/
structure CSVTxn where
  date : String
  description : String
  amount : Option ℚ
  type : String
  category_id : Nat
  source : String
  deriving DecidableEq

/-- One row of the client CSV mapping: the date cell reparsed when truthy
(`dateNorm` models the `Date` reparse, which normalizes a parseable string
to ISO form and keeps the raw string otherwise), the amount cell stripped
of currency characters, parsed, and made absolute, the type and category
the user-chosen defaults, the source csv. -/
def mapCSVRow (dateNorm : String → String) (defaultType : String)
    (defaultCat : Nat) (r : CSVRow) : CSVTxn :=
  ⟨if r.date == "" then r.date else dateNorm r.date,
   r.description,
   (parseJSFloat (stripCurrency r.amountRaw)).map (fun q => |q|),
   defaultType, defaultCat, "csv"⟩

/-- Embeds the client handleCSVImport mapping step: maps every parsed row
and keeps those whose date and description are truthy and whose amount is
a number; the kept list is what is submitted, and its length is the count
the client reports. -/
def handleCSVImport (dateNorm : String → String) (defaultType : String)
    (defaultCat : Nat) (rows : List CSVRow) : List CSVTxn :=
  (rows.map (mapCSVRow dateNorm defaultType defaultCat)).filter
    (fun t => t.date != "" && t.description != "" && t.amount.isSome)

/-- Projection of a stored transaction row to its payload, everything but
the assigned id. -/
def txnPayload (t : Txn) : String × String × Money × String × Nat × String :=
  (t.date, t.description, t.amount, t.type, t.category_id, t.source)

/-- Payload a valid import element is stored with. -/
def inputPayload (defSource : String) (i : TxnInput) :
    String × String × Money × String × Nat × String :=
  (i.date.getD "", i.description.getD "", i.amount.getD 0, i.type.getD "",
   i.category_id.getD 0, i.source.getD defSource)

/-- Concrete store appearing in witnesses: two active categories, one
deactivated one, four January transactions, one budget row. -/
def dbW : DB :=
  ⟨[⟨1, "Food", true, 0⟩, ⟨2, "Rent", true, 0⟩, ⟨3, "Old", false, 0⟩],
   [⟨1, "2024-01-05", "groceries", 50, "expense", 1, "manual"⟩,
    ⟨2, "2024-01-20", "more groceries", 25, "expense", 1, "csv"⟩,
    ⟨3, "2024-01-03", "rent", 900, "expense", 2, "manual"⟩,
    ⟨4, "2024-02-01", "february", 10, "expense", 1, "manual"⟩,
    ⟨5, "2024-01-15", "salary", 2000, "income", 1, "manual"⟩],
   [⟨1, "2024-01", 2, 1000, 0, 0⟩]⟩

/-- Concrete store of the C3 counterexample: the only category is
deactivated and holds an expense transaction in 2024-01. -/
def dbDeact : DB :=
  ⟨[⟨1, "Food", false, 0⟩],
   [⟨1, "2024-01-05", "market", 10, "expense", 1, "manual"⟩],
   []⟩

/-- Concrete store with a single active category and nothing else. -/
def dbOneCat : DB := ⟨[⟨1, "Misc", true, 0⟩], [], []⟩

/-- Request body of the C8 failing input: every checked field present and a
negative amount. -/
def bodyNeg : TxnInput :=
  ⟨some "2024-01-05", some "refund", some (-5), some "expense", some 1, none⟩

/-- Import element of the C5 counterexample: every checked field present
(the type string "x" is truthy), but the type violates the schema CHECK,
so the real insert throws. -/
def badElem : TxnInput :=
  ⟨some "2024-01-01", some "shoes", some 1, some "x", some 1, none⟩

/-- Import element passing both the field check and the store
constraints. -/
def goodElem : TxnInput :=
  ⟨some "2024-01-02", some "book", some 7, some "expense", some 1, none⟩

/-- Concrete CSV rows appearing in the C9 witness. -/
def rowsW : List CSVRow :=
  [⟨"2024-03-01", "Rent", "$1,200.50"⟩,
   ⟨"2024-03-02", "refund", "-45.10"⟩,
   ⟨"", "no date", "10"⟩,
   ⟨"2024-03-03", "bad amount", "abc"⟩]

/-- Folding amounts with a CASE-WHEN guard equals summing the amounts of the
filtered list. -/
theorem foldl_add_case (p : Txn → Bool) (l : List Txn) (a : Money) :
    l.foldl (fun acc t => acc + (if p t then t.amount else 0)) a
      = a + ((l.filter p).map Txn.amount).sum := by
  induction l generalizing a with
  | nil => simp
  | cons t l ih =>
    cases h : p t with
    | true => simp [List.foldl_cons, ih, List.filter_cons, h]; ring
    | false => simp [List.foldl_cons, ih, List.filter_cons, h]

/-- The totals aggregate of getSummary computes the per-type sum of the
month, as the spec words it. -/
theorem totalsFold_eq_sumOfType (db : DB) (month ty : String) :
    totalsFold db month ty = sumOfType db month ty := by
  unfold totalsFold sumOfType
  rw [foldl_add_case, zero_add, List.filter_filter]

/-- The actual aggregate of the breakdown query computes the per-category
expense sum of the month, as the spec words it. -/
theorem rowActual_eq_expenseSumIn (db : DB) (month : String) (cid : Nat) :
    rowActual db month cid = expenseSumIn db month cid := by
  unfold rowActual expenseSumIn
  rw [foldl_add_case, zero_add, List.filter_filter]
  simp only [Bool.and_assoc]

/-- C2: for every database state and month, the summary of
GET /api/reports/summary has total_income equal to the sum of amounts of
income transactions dated in the month, total_expenses equal to the sum of
amounts of expense transactions dated in the month, and
total_income minus total_expenses equal to net. -/
theorem C2_summary_net (db : DB) (month : String) :
    (getSummary db month).total_income = sumOfType db month "income" ∧
    (getSummary db month).total_expenses = sumOfType db month "expense" ∧
    (getSummary db month).total_income - (getSummary db month).total_expenses
      = (getSummary db month).net :=
  ⟨totalsFold_eq_sumOfType db month "income",
   totalsFold_eq_sumOfType db month "expense", rfl⟩

/-- Filtering the breakdown rows by an id that no category of the list
carries yields nothing. -/
theorem filter_breakdown_id_nil (f : Category → BreakdownRow)
    (hid : ∀ c, (f c).id = c.id) (cats : List Category) (n : Nat)
    (h : n ∉ cats.map Category.id) :
    ((cats.filter (fun d => d.is_active)).map f).filter (fun r => r.id == n)
      = [] := by
  induction cats with
  | nil => rfl
  | cons d rest ih =>
    simp only [List.map_cons, List.mem_cons, not_or] at h
    obtain ⟨hne, hrest⟩ := h
    cases hact : d.is_active with
    | false =>
      simpa [List.filter_cons, hact] using ih hrest
    | true =>
      have hne2 : ((f d).id == n) = false := by
        simp [hid d, Ne.symm hne]
      simpa [List.filter_cons, hact, hne2] using ih hrest

/-- With distinct category ids, filtering the breakdown rows of the active
categories by the id of an active category of the list yields exactly the
row built from it. -/
theorem filter_breakdown_id_singleton (f : Category → BreakdownRow)
    (hid : ∀ c, (f c).id = c.id) (cats : List Category)
    (hnd : (cats.map Category.id).Nodup) (c : Category) (hc : c ∈ cats)
    (hact : c.is_active = true) :
    ((cats.filter (fun d => d.is_active)).map f).filter (fun r => r.id == c.id)
      = [f c] := by
  induction cats with
  | nil => cases hc
  | cons d rest ih =>
    simp only [List.map_cons, List.nodup_cons] at hnd
    obtain ⟨hd, hrest⟩ := hnd
    rcases List.mem_cons.mp hc with rfl | hc2
    · have hself : ((f c).id == c.id) = true := by simp [hid c]
      have hrestnil := filter_breakdown_id_nil f hid rest c.id hd
      simp [List.filter_cons, hact, hself, hrestnil]
    · have hne : c.id ≠ d.id := by
        intro he
        exact hd (he ▸ List.mem_map_of_mem Category.id hc2)
      cases hact2 : d.is_active with
      | false => simpa [List.filter_cons, hact2] using ih hrest hc2
      | true =>
        have hne2 : ((f d).id == c.id) = false := by simp [hid d, Ne.symm hne]
        simpa [List.filter_cons, hact2, hne2] using ih hrest hc2

/-- C1: for every store with distinct category ids and every month, the
category_breakdown of GET /api/reports/summary has exactly one entry per
active category, whose actual is the sum of amounts of the expense
transactions of that category dated in the month (0 if none) and whose
budgeted is the budget amount of that category for the month (0 if no
budget row exists), it has no other entries, and it is ordered by actual
descending. -/
theorem C1_breakdown_rows (db : DB) (month : String)
    (hnd : (db.categories.map Category.id).Nodup) :
    (∀ c ∈ db.categories, c.is_active = true →
        (getSummary db month).category_breakdown.filter (fun r => r.id == c.id)
          = [⟨c.id, c.name, expenseSumIn db month c.id, rowBudgeted db month c.id⟩]) ∧
    (getSummary db month).category_breakdown.length
        = (db.categories.filter (fun c => c.is_active)).length ∧
    (getSummary db month).category_breakdown.Pairwise
      (fun a b => b.actual ≤ a.actual) := by
  refine ⟨fun c hc hact => ?_, ?_, ?_⟩
  · have hperm :
        List.Perm
          ((getSummary db month).category_breakdown.filter (fun r => r.id == c.id))
          (((db.categories.filter (fun d => d.is_active)).map
              (fun d => (⟨d.id, d.name, rowActual db month d.id,
                rowBudgeted db month d.id⟩ : BreakdownRow))).filter
            (fun r => r.id == c.id)) :=
      (List.perm_insertionSort breakdownRelDesc _).filter _
    rw [filter_breakdown_id_singleton _ (fun _ => rfl) _ hnd c hc hact,
      rowActual_eq_expenseSumIn] at hperm
    exact hperm.eq_singleton
  · simp [getSummary, categoryBreakdown]
  · exact List.sorted_insertionSort breakdownRelDesc _

/-- Witness for C1 at the concrete store dbW in month 2024-01, applied to
the active category Rent. -/
theorem C1_breakdown_rows_witness :
    ((dbW.categories.map Category.id).Nodup) ∧
    ((getSummary dbW "2024-01").category_breakdown.filter (fun r => r.id == 2)
      = [⟨2, "Rent", expenseSumIn dbW "2024-01" 2, rowBudgeted dbW "2024-01" 2⟩]) :=
  ⟨by decide,
   (C1_breakdown_rows dbW "2024-01" (by decide)).1
     ⟨2, "Rent", true, 0⟩ (by decide) (by decide)⟩

/-- C3 counterexample: in the store dbDeact, category 1 is deactivated and
has an expense transaction dated in 2024-01, yet the raw category_breakdown
of the summary holds no entry for it: the `WHERE c.is_active = 1` filter of
the breakdown query drops deactivated categories even when they have
transactions in the month, so the claimed superset fails. -/
theorem C3_counterexample :
    (∃ t ∈ dbDeact.transactions, t.category_id = 1 ∧ monthOf t.date = "2024-01") ∧
    (∃ c ∈ dbDeact.categories, c.id = 1) ∧
    ¬ ((1 : Nat) ∈
        ((getSummary dbDeact "2024-01").category_breakdown.map BreakdownRow.id)) := by
  decide

/-- C3 (amended): the raw category_breakdown contains every active category
of the store, hence is a superset of the active categories with a
transaction or budget row in the month (the is_active filter excludes
deactivated ones); rows with zero actual and zero budgeted are present in
the raw result but excluded from the dashboard display. -/
theorem C3_breakdown_superset (db : DB) (month : String) :
    (∀ c ∈ db.categories, c.is_active = true →
        c.id ∈ (getSummary db month).category_breakdown.map BreakdownRow.id) ∧
    (∀ r ∈ (getSummary db month).category_breakdown,
        r.actual = 0 → r.budgeted = 0 →
          r ∉ displayedBreakdown (getSummary db month)) := by
  constructor
  · intro c hc hact
    have hmem : (⟨c.id, c.name, rowActual db month c.id,
        rowBudgeted db month c.id⟩ : BreakdownRow)
          ∈ (getSummary db month).category_breakdown := by
      show _ ∈ categoryBreakdown db month
      rw [categoryBreakdown, List.mem_insertionSort]
      exact List.mem_map_of_mem _ (List.mem_filter.mpr ⟨hc, hact⟩)
    simpa using List.mem_map_of_mem BreakdownRow.id hmem
  · intro r _ h1 h2 hdisp
    have := (List.mem_filter.mp hdisp).2
    simp [h1, h2] at this

/-- Witness for C3 (amended) at the concrete store dbW in month 2024-01:
the active category Food appears in the raw breakdown. -/
theorem C3_breakdown_superset_witness :
    (1 : Nat) ∈ (getSummary dbW "2024-01").category_breakdown.map BreakdownRow.id :=
  (C3_breakdown_superset dbW "2024-01").1 ⟨1, "Food", true, 0⟩ (by decide) (by decide)

/-- Updating a budget row touches neither its month nor its category, so
the conflict test is unchanged. -/
theorem matchesBudget_updateBudget (now : Nat) (amt : Money) (month : String)
    (cid : Nat) (b : BudgetRow) :
    matchesBudget month cid (updateBudget now amt month cid b)
      = matchesBudget month cid b := by
  by_cases h : matchesBudget month cid b = true
  · rw [updateBudget, if_pos h, h]
    exact h
  · rw [updateBudget, if_neg h]

/-- A second budget update overwrites the first. -/
theorem updateBudget_updateBudget (t1 t2 : Nat) (a1 a2 : Money)
    (month : String) (cid : Nat) (b : BudgetRow) :
    updateBudget t2 a2 month cid (updateBudget t1 a1 month cid b)
      = updateBudget t2 a2 month cid b := by
  by_cases h : matchesBudget month cid b = true
  · have h1 : updateBudget t1 a1 month cid b
        = { b with budget_amount := a1, updated_at := t1 } := by
      rw [updateBudget, if_pos h]
    have h2 : matchesBudget month cid
        ({ b with budget_amount := a1, updated_at := t1 } : BudgetRow) = true := h
    rw [h1, updateBudget, if_pos h2, updateBudget, if_pos h]
  · have h1 : updateBudget t1 a1 month cid b = b := by
      rw [updateBudget, if_neg h]
    rw [h1]

/-- The conflict test over an updated table equals the one over the
original table. -/
theorem any_matches_map_update (t : Nat) (a : Money) (month : String)
    (cid : Nat) (rows : List BudgetRow) :
    (rows.map (updateBudget t a month cid)).any (matchesBudget month cid)
      = rows.any (matchesBudget month cid) := by
  rw [List.any_map]
  simp only [Function.comp_def, matchesBudget_updateBudget]

/-- Filtering the conflict rows commutes with the update. -/
theorem filter_matches_map_update (t : Nat) (a : Money) (month : String)
    (cid : Nat) (rows : List BudgetRow) :
    (rows.map (updateBudget t a month cid)).filter (matchesBudget month cid)
      = (rows.filter (matchesBudget month cid)).map (updateBudget t a month cid) := by
  rw [List.filter_map]
  congr 1
  apply List.filter_congr
  intro b _
  exact matchesBudget_updateBudget t a month cid b

/-- A POST /api/budgets body with one valid pair performs exactly one
upsert. -/
theorem saveBudgets_singleton (now : Nat) (month : String) (cid : Nat)
    (amt : Money) (rows : List BudgetRow) (h : cid ≠ 0) :
    saveBudgets now month [⟨some cid, some amt⟩] rows
      = upsertBudget now month cid amt rows := by
  simp [saveBudgets, budgetInputOk, h]

/-- C4 counterexample: on an empty budget table, saving amount 100 at tick 0
and then amount 200 at tick 1 leaves a row whose created_at is 0, while a
single save of 200 at tick 1 creates the row with created_at 1, so the two
final states are not equal as the claim states. -/
theorem C4_counterexample :
    saveBudgets 1 "2024-01" [⟨some 5, some 200⟩]
        (saveBudgets 0 "2024-01" [⟨some 5, some 100⟩] [])
      ≠ saveBudgets 1 "2024-01" [⟨some 5, some 200⟩] [] := by
  decide

/-- C4 (amended): for every budget table respecting the unique index (at
most one row per month and category), saving a1 at tick t1 and then a2 at
tick t2 for the same month and category leaves exactly one conflict row,
with budget_amount a2 and updated_at bumped to t2, and the final state
equals the state after a single save of a2 up to the created_at column (a
fresh insert keeps the created_at of the first save). -/
theorem C4_budget_upsert (rows : List BudgetRow) (month : String) (cid : Nat)
    (a1 a2 : Money) (t1 t2 : Nat) (hcid : cid ≠ 0)
    (huniq : (rows.filter (matchesBudget month cid)).length ≤ 1) :
    ((saveBudgets t2 month [⟨some cid, some a2⟩]
        (saveBudgets t1 month [⟨some cid, some a1⟩] rows)).filter
          (matchesBudget month cid)).map (fun b => (b.budget_amount, b.updated_at))
      = [(a2, t2)] ∧
    (saveBudgets t2 month [⟨some cid, some a2⟩]
        (saveBudgets t1 month [⟨some cid, some a1⟩] rows)).map eraseCreated
      = (saveBudgets t2 month [⟨some cid, some a2⟩] rows).map eraseCreated := by
  rw [saveBudgets_singleton t1 month cid a1 rows hcid,
    saveBudgets_singleton t2 month cid a2 _ hcid,
    saveBudgets_singleton t2 month cid a2 rows hcid]
  by_cases hany : rows.any (matchesBudget month cid) = true
  · have hone : ∃ b, rows.filter (matchesBudget month cid) = [b] := by
      rcases List.any_eq_true.mp hany with ⟨x, hx, hpx⟩
      have hmem : x ∈ rows.filter (matchesBudget month cid) :=
        List.mem_filter.mpr ⟨hx, hpx⟩
      have h1 : 0 < (rows.filter (matchesBudget month cid)).length :=
        List.length_pos.mpr (List.ne_nil_of_mem hmem)
      exact List.length_eq_one.mp (Nat.le_antisymm huniq h1)
    rcases hone with ⟨b0, hb0⟩
    have hpb0 : matchesBudget month cid b0 = true :=
      (List.mem_filter.mp (hb0 ▸ List.mem_singleton_self b0)).2
    have hcomp : (rows.map (updateBudget t1 a1 month cid)).map
        (updateBudget t2 a2 month cid) = rows.map (updateBudget t2 a2 month cid) := by
      rw [List.map_map]
      apply List.map_congr_left
      intro b _
      exact updateBudget_updateBudget t1 t2 a1 a2 month cid b
    simp only [upsertBudget, hany, any_matches_map_update, if_true]
    rw [hcomp]
    refine ⟨?_, rfl⟩
    rw [filter_matches_map_update, hb0]
    simp [updateBudget, hpb0]
  · have hany0 : rows.any (matchesBudget month cid) = false := by
      simpa using hany
    have hnil : rows.filter (matchesBudget month cid) = [] :=
      List.filter_eq_nil_iff.mpr (List.any_eq_false.mp hany0)
    have hid : ∀ b ∈ rows, updateBudget t2 a2 month cid b = b := by
      intro b hb
      rw [updateBudget, if_neg (List.any_eq_false.mp hany0 b hb)]
    have hr1 : matchesBudget month cid
        (⟨maxBudgetId rows + 1, month, cid, a1, t1, t1⟩ : BudgetRow) = true := by
      simp [matchesBudget]
    have hmaprows : rows.map (updateBudget t2 a2 month cid) = rows := by
      calc rows.map (updateBudget t2 a2 month cid)
          = rows.map id := List.map_congr_left (fun b hb => hid b hb)
        _ = rows := List.map_id rows
    have hupd1 : updateBudget t2 a2 month cid
        (⟨maxBudgetId rows + 1, month, cid, a1, t1, t1⟩ : BudgetRow)
          = ⟨maxBudgetId rows + 1, month, cid, a2, t1, t2⟩ := by
      rw [updateBudget, if_pos hr1]
    simp only [upsertBudget, hany0, Bool.false_eq_true, if_false, List.any_append,
      hr1, List.any_cons, List.any_nil, Bool.or_true, Bool.or_false, if_true,
      List.map_append, hmaprows, List.map_cons, List.map_nil, hupd1]
    constructor
    · rw [List.filter_append, hnil, List.nil_append]
      simp [List.filter_cons, matchesBudget]
    · rfl

/-- Witness for C4 (amended) on the empty budget table with category 5,
amounts 100 then 200, ticks 0 then 1. -/
theorem C4_budget_upsert_witness :
    ((5 : Nat) ≠ 0) ∧
    ((([] : List BudgetRow).filter (matchesBudget "2024-01" 5)).length ≤ 1) ∧
    ((saveBudgets 1 "2024-01" [⟨some 5, some 200⟩]
        (saveBudgets 0 "2024-01" [⟨some 5, some 100⟩] [])).filter
          (matchesBudget "2024-01" 5)).map (fun b => (b.budget_amount, b.updated_at))
      = [(200, 1)] :=
  ⟨by decide, by decide,
   (C4_budget_upsert [] "2024-01" 5 100 200 0 1 (by decide) (by decide)).1⟩

/-- Inserting a transaction row does not change the categories table, so
the store constraints of a later insert are unchanged. -/
theorem insertErr_insertTxn (db : DB) (s : String) (j i : TxnInput) :
    insertErr (insertTxn db s j) i = insertErr db i := rfl

/-- Unfolding step of the import loop on an element failing the field
check: it is skipped. -/
theorem importLoop_cons_skip (db : DB) (i : TxnInput) (rest : List TxnInput)
    (h : fieldCheck i = false) :
    importLoop db (i :: rest) = importLoop db rest := by
  simp [importLoop, h]

/-- Unfolding step of the import loop on an element passing the field check
whose insert succeeds. -/
theorem importLoop_cons_ok (db : DB) (i : TxnInput) (rest : List TxnInput)
    (h : fieldCheck i = true) (hok : insertErr db i = none) :
    importLoop db (i :: rest)
      = match importLoop (insertTxn db "csv" i) rest with
        | Sum.inl (db2, n) => Sum.inl (db2, n + 1)
        | Sum.inr e => Sum.inr e := by
  simp [importLoop, h, hok]

/-- Unfolding step of the import loop on an element passing the field check
whose insert throws: the loop aborts. -/
theorem importLoop_cons_err (db : DB) (i : TxnInput) (rest : List TxnInput)
    (m : String) (h : fieldCheck i = true) (hm : insertErr db i = some m) :
    importLoop db (i :: rest) = Sum.inr (db, m) := by
  simp [importLoop, h, hm]

/-- When every element passing the field check also satisfies the store
constraints, the import loop completes: it inserts exactly the passing
elements in order and counts them, leaving the other tables untouched. -/
theorem importLoop_ok (db : DB) (inputs : List TxnInput)
    (h : ∀ i ∈ inputs, fieldCheck i = true → insertErr db i = none) :
    ∃ db1, importLoop db inputs = Sum.inl (db1, (inputs.filter fieldCheck).length) ∧
      db1.transactions.map txnPayload
        = db.transactions.map txnPayload
          ++ (inputs.filter fieldCheck).map (inputPayload "csv") ∧
      db1.categories = db.categories ∧ db1.budgets = db.budgets := by
  induction inputs generalizing db with
  | nil => exact ⟨db, rfl, by simp, rfl, rfl⟩
  | cons i rest ih =>
    cases hfc : fieldCheck i with
    | false =>
      have hrest : ∀ j ∈ rest, fieldCheck j = true → insertErr db j = none :=
        fun j hj => h j (List.mem_cons_of_mem i hj)
      obtain ⟨db1, h1, h2, h3, h4⟩ := ih db hrest
      refine ⟨db1, ?_, ?_, h3, h4⟩
      · rw [importLoop_cons_skip db i rest hfc, h1, List.filter_cons, hfc]
        simp
      · rw [h2, List.filter_cons, hfc]
        simp
    | true =>
      have hok : insertErr db i = none := h i (List.mem_cons_self i rest) hfc
      have hrest : ∀ j ∈ rest, fieldCheck j = true →
          insertErr (insertTxn db "csv" i) j = none := by
        intro j hj hfj
        rw [insertErr_insertTxn]
        exact h j (List.mem_cons_of_mem i hj) hfj
      obtain ⟨db1, h1, h2, h3, h4⟩ := ih (insertTxn db "csv" i) hrest
      have hins : (insertTxn db "csv" i).transactions.map txnPayload
          = db.transactions.map txnPayload ++ [inputPayload "csv" i] := by
        simp only [insertTxn, List.map_append, List.map_cons, List.map_nil]
        rfl
      refine ⟨db1, ?_, ?_, h3, h4⟩
      · rw [importLoop_cons_ok db i rest hfc hok, h1, List.filter_cons, hfc,
          if_pos rfl, List.length_cons]
      · rw [h2, hins, List.filter_cons, hfc, if_pos rfl, List.map_cons,
          List.append_assoc, List.singleton_append]

/-- When an element passing the field check violates a store constraint,
the loop aborts there: the prefix before it is imported as usual and the
thrown message is returned with the store as of the throw. -/
theorem importLoop_err (db : DB) (pre post : List TxnInput) (bad : TxnInput)
    (m : String)
    (hpre : ∀ i ∈ pre, fieldCheck i = true → insertErr db i = none)
    (hb : fieldCheck bad = true) (hm : insertErr db bad = some m) :
    ∃ db1, importLoop db (pre ++ bad :: post) = Sum.inr (db1, m) ∧
      importLoop db pre = Sum.inl (db1, (pre.filter fieldCheck).length) := by
  induction pre generalizing db with
  | nil =>
    exact ⟨db, by rw [List.nil_append, importLoop_cons_err db bad post m hb hm], rfl⟩
  | cons p pre' ih =>
    cases hfc : fieldCheck p with
    | false =>
      have hpre' : ∀ i ∈ pre', fieldCheck i = true → insertErr db i = none :=
        fun i hi => hpre i (List.mem_cons_of_mem p hi)
      obtain ⟨db1, h1, h2⟩ := ih db hpre' hm
      refine ⟨db1, ?_, ?_⟩
      · rw [List.cons_append, importLoop_cons_skip db p _ hfc, h1]
      · rw [importLoop_cons_skip db p pre' hfc, h2, List.filter_cons, hfc]
        simp
    | true =>
      have hok : insertErr db p = none := hpre p (List.mem_cons_self p pre') hfc
      have hpre' : ∀ i ∈ pre', fieldCheck i = true →
          insertErr (insertTxn db "csv" p) i = none := by
        intro i hi hfi
        rw [insertErr_insertTxn]
        exact hpre i (List.mem_cons_of_mem p hi) hfi
      have hm' : insertErr (insertTxn db "csv" p) bad = some m := by
        rw [insertErr_insertTxn]
        exact hm
      obtain ⟨db1, h1, h2⟩ := ih (insertTxn db "csv" p) hpre' hm'
      refine ⟨db1, ?_, ?_⟩
      · rw [List.cons_append, importLoop_cons_ok db p _ hfc hok, h1]
      · rw [importLoop_cons_ok db p pre' hfc hok, h2, List.filter_cons, hfc,
          if_pos rfl, List.length_cons]

/-- C5 counterexample: the element badElem passes the per-element presence
validation (its type string "x" is truthy), yet the import of the single
element array answers 500 with no imported count and inserts nothing: the
schema CHECK on type makes the insert throw and the batch fails instead of
the element being inserted or silently skipped. -/
theorem C5_counterexample :
    fieldCheck badElem = true ∧
    (txnImport dbOneCat [badElem]).status = 500 ∧
    (txnImport dbOneCat [badElem]).imported = none ∧
    (txnImport dbOneCat [badElem]).db.transactions = dbOneCat.transactions := by
  decide

/-- C5 (amended): each element of the import array is checked independently
for JS-truthy presence of its fields. When every element passing that check
also satisfies the store constraints of the schema (type and source CHECKs,
category foreign key), exactly the passing elements are inserted, elements
failing the check are silently skipped, the response is 200 and reports
imported equal to the number inserted, and the other tables are untouched.
When instead some element passing the check violates a store constraint,
the first such element makes the insert throw: the valid elements before it
stay committed, the loop stops, and the handler answers 500 with the store
message and no count. -/
theorem C5_import_batch (db : DB) (inputs : List TxnInput) :
    ((∀ i ∈ inputs, fieldCheck i = true → insertErr db i = none) →
      (txnImport db inputs).status = 200 ∧
      (txnImport db inputs).error = none ∧
      (txnImport db inputs).imported = some (inputs.filter fieldCheck).length ∧
      ((txnImport db inputs).db.transactions).map txnPayload
        = db.transactions.map txnPayload
          ++ (inputs.filter fieldCheck).map (inputPayload "csv") ∧
      (txnImport db inputs).db.categories = db.categories ∧
      (txnImport db inputs).db.budgets = db.budgets) ∧
    (∀ pre bad post, inputs = pre ++ bad :: post →
      (∀ i ∈ pre, fieldCheck i = true → insertErr db i = none) →
      fieldCheck bad = true →
      ∀ m, insertErr db bad = some m →
      (txnImport db inputs).status = 500 ∧
      (txnImport db inputs).error = some m ∧
      (txnImport db inputs).imported = none ∧
      (txnImport db inputs).db = (txnImport db pre).db) := by
  constructor
  · intro h
    obtain ⟨db1, h1, h2, h3, h4⟩ := importLoop_ok db inputs h
    rw [txnImport, h1]
    exact ⟨rfl, rfl, rfl, h2, h3, h4⟩
  · intro pre bad post heq hpre hb m hm
    subst heq
    obtain ⟨db1, h1, h2⟩ := importLoop_err db pre post bad m hpre hb hm
    rw [txnImport, h1, txnImport, h2]
    exact ⟨rfl, rfl, rfl, rfl⟩

/-- Witness for C5 (amended) at the store dbOneCat on the one element array
of goodElem, discharging the store-constraint hypothesis. -/
theorem C5_import_batch_witness :
    (∀ i ∈ [goodElem], fieldCheck i = true → insertErr dbOneCat i = none) ∧
    (txnImport dbOneCat [goodElem]).status = 200 ∧
    (txnImport dbOneCat [goodElem]).imported = some 1 := by
  have h := (C5_import_batch dbOneCat [goodElem]).1 (by decide)
  exact ⟨by decide, h.1, h.2.2.1.trans (by decide)⟩

/-- C6: for every store and category id, DELETE /api/categories/:id keeps
the transactions and budgets tables unchanged, keeps every category row
(same id, name and created_at, rows of other ids entirely unchanged) and
sets is_active of the targeted id to false; afterwards no listed category
of GET /api/categories carries the deactivated id. -/
theorem C6_soft_delete (db : DB) (cid : Nat) :
    (deleteCategory db cid).transactions = db.transactions ∧
    (deleteCategory db cid).budgets = db.budgets ∧
    List.Forall₂
      (fun c c' : Category =>
        c'.id = c.id ∧ c'.name = c.name ∧ c'.created_at = c.created_at ∧
        (c.id = cid → c'.is_active = false) ∧ (c.id ≠ cid → c' = c))
      db.categories (deleteCategory db cid).categories ∧
    ∀ c ∈ getCategories (deleteCategory db cid), c.id ≠ cid := by
  refine ⟨rfl, rfl, ?_, ?_⟩
  · rw [deleteCategory]
    rw [List.forall₂_map_right_iff, List.forall₂_same]
    intro c _
    by_cases h : c.id = cid
    · have hbeq : (c.id == cid) = true := by simp [h]
      exact ⟨by simp [hbeq], by simp [hbeq], by simp [hbeq],
        fun _ => by simp [hbeq], fun hne => absurd h hne⟩
    · have hbeq : (c.id == cid) = false := by simp [h]
      exact ⟨by simp [hbeq], by simp [hbeq], by simp [hbeq],
        fun hc => absurd hc h, fun _ => by simp [hbeq]⟩
  · intro c hc
    rw [getCategories, List.mem_insertionSort] at hc
    obtain ⟨hmem, hact⟩ := List.mem_filter.mp hc
    rcases List.mem_map.mp hmem with ⟨d, hd, hfd⟩
    intro he
    by_cases h : d.id = cid
    · have hfalse : c.is_active = false := by
        rw [← hfd]
        simp [h]
      rw [hfalse] at hact
      cases hact
    · have hcd : c = d := by
        rw [← hfd]
        simp [h]
      rw [hcd] at he
      exact h he

/-- Witness for C6 at the concrete store dbW, deactivating category 1. -/
theorem C6_soft_delete_witness :
    (deleteCategory dbW 1).transactions = dbW.transactions ∧
    ∀ c ∈ getCategories (deleteCategory dbW 1), c.id ≠ 1 :=
  ⟨(C6_soft_delete dbW 1).1, (C6_soft_delete dbW 1).2.2.2⟩

/-- A body failing the field check is rejected before the store is
touched. -/
theorem createHandler_invalid (db : DB) (body : TxnInput) (e : Option String)
    (hfc : fieldCheck body = false) :
    createTransactionHandler db body e
      = ⟨400, some "Missing required fields", db⟩ := by
  simp [createTransactionHandler, hfc]

/-- A body passing the field check with a type that is neither income nor
expense is rejected before the store is touched. -/
theorem createHandler_badtype (db : DB) (body : TxnInput) (e : Option String)
    (hfc : fieldCheck body = true) (h1 : body.type.getD "" ≠ "income")
    (h2 : body.type.getD "" ≠ "expense") :
    createTransactionHandler db body e
      = ⟨400, some "Type must be \"income\" or \"expense\"", db⟩ := by
  simp [createTransactionHandler, hfc, h1, h2]

/-- A valid body reaches the store call: its outcome decides the
response. -/
theorem createHandler_valid (db : DB) (body : TxnInput) (e : Option String)
    (hfc : fieldCheck body = true)
    (hty : body.type.getD "" = "income" ∨ body.type.getD "" = "expense") :
    createTransactionHandler db body e
      = match e with
        | some m => ⟨500, some m, db⟩
        | none => ⟨201, none, insertTxn db "manual" body⟩ := by
  rcases hty with h | h <;> simp [createTransactionHandler, hfc, h]

/-- C7: a POST /api/transactions body missing date, description, amount,
type or category_id is answered 400 with a descriptive message and the
store is unchanged; a present type that is neither income nor expense is
answered 400 with the store unchanged; a body passing validation attempts
the insert, a store error is passed through as 500 with its message and no
other change, and a successful insert answers 201 with the row stored. -/
theorem C7_create_transaction_errors (db : DB) (body : TxnInput)
    (e : Option String) :
    ((body.date = none ∨ body.description = none ∨ body.amount = none ∨
        body.type = none ∨ body.category_id = none) →
      (createTransactionHandler db body e).status = 400 ∧
      (createTransactionHandler db body e).error = some "Missing required fields" ∧
      (createTransactionHandler db body e).db = db) ∧
    (fieldCheck body = true → body.type.getD "" ≠ "income" →
        body.type.getD "" ≠ "expense" →
      (createTransactionHandler db body e).status = 400 ∧
      (createTransactionHandler db body e).db = db) ∧
    (fieldCheck body = true →
        (body.type.getD "" = "income" ∨ body.type.getD "" = "expense") →
      (∀ m, e = some m →
        (createTransactionHandler db body e).status = 500 ∧
        (createTransactionHandler db body e).error = some m ∧
        (createTransactionHandler db body e).db = db) ∧
      (e = none →
        (createTransactionHandler db body e).status = 201 ∧
        (createTransactionHandler db body e).db = insertTxn db "manual" body)) := by
  refine ⟨?_, ?_, ?_⟩
  · intro hmiss
    have hfc : fieldCheck body = false := by
      rcases hmiss with h | h | h | h | h <;> simp [fieldCheck, h]
    rw [createHandler_invalid db body e hfc]
    exact ⟨rfl, rfl, rfl⟩
  · intro hfc h1 h2
    rw [createHandler_badtype db body e hfc h1 h2]
    exact ⟨rfl, rfl⟩
  · intro hfc hty
    constructor
    · intro m he
      subst he
      rw [createHandler_valid db body (some m) hfc hty]
      exact ⟨rfl, rfl, rfl⟩
    · intro he
      subst he
      rw [createHandler_valid db body none hfc hty]
      exact ⟨rfl, rfl⟩

/-- Witness for C7 at the store dbOneCat with a body missing its date. -/
theorem C7_create_transaction_errors_witness :
    (createTransactionHandler dbOneCat
        ⟨none, some "x", some 5, some "expense", some 1, none⟩ none).status = 400 ∧
    (createTransactionHandler dbOneCat
        ⟨none, some "x", some 5, some "expense", some 1, none⟩ none).db = dbOneCat := by
  have h := C7_create_transaction_errors dbOneCat
    ⟨none, some "x", some 5, some "expense", some 1, none⟩ none
  exact ⟨(h.1 (Or.inl rfl)).1, (h.1 (Or.inl rfl)).2.2⟩

/-- C8: evaluation of the code at the failing input. The body bodyNeg
carries amount -5; it passes validation (the handler checks only presence
and the type string, never the sign), the insert is performed, and the
store then holds a transaction with a negative amount, contradicting the
claimed non-negativity invariant. -/
theorem C8_negative_amount_stored :
    (createTransactionHandler dbOneCat bodyNeg none).status = 201 ∧
    ∃ t ∈ (createTransactionHandler dbOneCat bodyNeg none).db.transactions,
      t.amount < 0 := by
  decide

/-- C9: for every parsed CSV table and column mapping, the list the client
submits is exactly the rows with truthy date and description and a numeric
stripped amount, mapped; the mapped amount of a row whose stripped cell
parses to q is the absolute value of q, with type and category the
user-chosen defaults; dropped rows are excluded from the submitted list
whose length is the reported count. The hypothesis on dateNorm states the
only relevant fact about the Date reparse: it keeps nonempty strings
nonempty (it yields an ISO string or keeps the raw one). -/
theorem C9_csv_amount_mapping (dateNorm : String → String)
    (defaultType : String) (defaultCat : Nat) (rows : List CSVRow)
    (hd : ∀ s, s ≠ "" → dateNorm s ≠ "") :
    handleCSVImport dateNorm defaultType defaultCat rows
      = (rows.filter (fun r => r.date != "" && r.description != "" &&
            (parseJSFloat (stripCurrency r.amountRaw)).isSome)).map
          (mapCSVRow dateNorm defaultType defaultCat) ∧
    ∀ r ∈ rows, ∀ q : ℚ, parseJSFloat (stripCurrency r.amountRaw) = some q →
      (mapCSVRow dateNorm defaultType defaultCat r).amount = some |q| ∧
      (mapCSVRow dateNorm defaultType defaultCat r).type = defaultType ∧
      (mapCSVRow dateNorm defaultType defaultCat r).category_id = defaultCat := by
  constructor
  · rw [handleCSVImport, List.filter_map]
    congr 1
    apply List.filter_congr
    intro r _
    show (((mapCSVRow dateNorm defaultType defaultCat r).date != "" &&
        (mapCSVRow dateNorm defaultType defaultCat r).description != "") &&
          (mapCSVRow dateNorm defaultType defaultCat r).amount.isSome) = _
    by_cases hdate : r.date = ""
    · simp [mapCSVRow, hdate]
    · have h1 : (r.date == "") = false := by simp [hdate]
      have h2 : dateNorm r.date ≠ "" := hd r.date hdate
      have h3 : (dateNorm r.date != "") = true := by simpa using h2
      have h4 : (r.date != "") = true := by simpa using hdate
      simp only [mapCSVRow, h1, Bool.false_eq_true, if_false, h3, h4,
        Option.isSome_map', Bool.true_and]
  · intro r _ q hq
    refine ⟨?_, rfl, rfl⟩
    simp [mapCSVRow, hq]

/-- Witness for C9 with dateNorm the identity reparse on the concrete rows
rowsW: the submitted list is the filtered mapped list. -/
theorem C9_csv_amount_mapping_witness :
    (∀ s : String, s ≠ "" → (fun x : String => x) s ≠ "") ∧
    handleCSVImport (fun x => x) "expense" 1 rowsW
      = (rowsW.filter (fun r => r.date != "" && r.description != "" &&
            (parseJSFloat (stripCurrency r.amountRaw)).isSome)).map
          (mapCSVRow (fun x => x) "expense" 1) :=
  ⟨fun _ h => h,
   (C9_csv_amount_mapping (fun x => x) "expense" 1 rowsW (fun _ h => h)).1⟩

/-- Attaching the category name and projecting it away is the identity. -/
theorem map_fst_joinName (db : DB) (l : List Txn) :
    (l.map (joinName db)).map Prod.fst = l := by
  rw [List.map_map]
  exact List.map_id l

/-- C10: GET /api/transactions without a month returns at most 100 rows,
sorted by date descending, which together with the dropped remainder of
the sorted table are a permutation of the transactions table, every
returned row dated no earlier than every dropped one; with a month it
returns exactly the transactions of the month (a permutation of the
filtered table, no limit), sorted by date descending. -/
theorem C10_get_transactions (db : DB) :
    (getTransactions db none).length ≤ 100 ∧
    (getTransactions db none).Pairwise (fun a b => b.1.date ≤ a.1.date) ∧
    List.Perm ((getTransactions db none).map Prod.fst
        ++ (List.insertionSort txnDateRelDesc db.transactions).drop 100)
      db.transactions ∧
    (∀ a ∈ getTransactions db none,
      ∀ b ∈ (List.insertionSort txnDateRelDesc db.transactions).drop 100,
        b.date ≤ a.1.date) ∧
    ∀ m : String,
      List.Perm ((getTransactions db (some m)).map Prod.fst)
        (db.transactions.filter (fun t => monthOf t.date == m)) ∧
      (getTransactions db (some m)).Pairwise (fun a b => b.1.date ≤ a.1.date) := by
  have hsorted : (List.insertionSort txnDateRelDesc db.transactions).Pairwise
      txnDateRelDesc := List.sorted_insertionSort txnDateRelDesc db.transactions
  have htake : ((List.insertionSort txnDateRelDesc db.transactions).take 100).Pairwise
      txnDateRelDesc :=
    hsorted.sublist (List.take_sublist 100 _)
  refine ⟨?_, ?_, ?_, ?_, ?_⟩
  · show (((List.insertionSort txnDateRelDesc db.transactions).take 100).map
        (joinName db)).length ≤ 100
    rw [List.length_map, List.length_take]
    exact Nat.min_le_left 100 _
  · show (((List.insertionSort txnDateRelDesc db.transactions).take 100).map
        (joinName db)).Pairwise (fun a b => b.1.date ≤ a.1.date)
    exact List.pairwise_map.mpr htake
  · show List.Perm
      ((((List.insertionSort txnDateRelDesc db.transactions).take 100).map
          (joinName db)).map Prod.fst
        ++ (List.insertionSort txnDateRelDesc db.transactions).drop 100) _
    rw [map_fst_joinName, List.take_append_drop]
    exact List.perm_insertionSort txnDateRelDesc db.transactions
  · intro a ha b hb
    rcases List.mem_map.mp ha with ⟨x, hx, rfl⟩
    have hsplit := hsorted
    rw [← List.take_append_drop 100
      (List.insertionSort txnDateRelDesc db.transactions)] at hsplit
    exact (List.pairwise_append.mp hsplit).2.2 x hx b hb
  · intro m
    constructor
    · rw [getTransactions, map_fst_joinName]
      exact List.perm_insertionSort txnDateRelDesc _
    · exact List.pairwise_map.mpr
        (List.sorted_insertionSort txnDateRelDesc _)

/-- Witness for C10 at the concrete store dbW: the month query for 2024-01
returns a permutation of the January transactions. -/
theorem C10_get_transactions_witness :
    List.Perm ((getTransactions dbW (some "2024-01")).map Prod.fst)
      (dbW.transactions.filter (fun t => monthOf t.date == "2024-01")) :=
  ((C10_get_transactions dbW).2.2.2.2 "2024-01").1

end BudgetManager
